import Mathlib

/-!
Verification of the UroGuardian orchestration core (src/v2/rpi/src) against its
natural-language specification.  Each Python component is shallowly embedded as
executable Lean definitions: pure logic becomes Lean functions, stateful code
becomes explicit state passing, and externally visible actions (database writes,
log lines, stage-change requests, process starts) are recorded in effect traces.
-/

namespace UroGuardian

/-! ## Presence sensor (src/v2/rpi/src/presence_sensor.py) -/

/-- The three presence classifications (class PresenceEvent). -/
inductive PresenceEvent
  | URINAL_IN_USE
  | NEARBY_DETECTED
  | NO_PRESENCE
deriving DecidableEq

/-- The basic report delivered by the LD2410 driver: three raw distance
readings in centimetres (a reading of 0 is what the hardware reports when the
corresponding detector sees nothing). -/
structure ReportBasicStatus where
  static_distance : Nat
  moving_distance : Nat
  detection_distance : Nat
deriving DecidableEq

/-- The two configured thresholds of PresenceSensor.__init__
(in_use_threshold_cm and near_threshold_cm). -/
structure PresenceConfig where
  in_use_threshold_cm : Nat
  near_threshold_cm : Nat
deriving DecidableEq

/-- The list comprehension of PresenceSensor._interpret_report line 46:
`[x for x in [rep.static_distance, rep.moving_distance, rep.detection_distance] if x]`.
Truthiness of an integer reading means being nonzero. -/
def availableDistances (rep : ReportBasicStatus) : List Nat :=
  [rep.static_distance, rep.moving_distance, rep.detection_distance].filter
    (fun x => x ≠ 0)

/-- PresenceSensor._interpret_report (presence_sensor.py lines 45-55): empty
sample set classifies NO_PRESENCE, otherwise the minimum of the available
distances is compared against the two thresholds. -/
def interpret_report (cfg : PresenceConfig) (rep : ReportBasicStatus) :
    PresenceEvent :=
  match availableDistances rep with
  | [] => PresenceEvent.NO_PRESENCE
  | d :: ds =>
    let min_dist := ds.foldl min d
    if min_dist ≤ cfg.in_use_threshold_cm then PresenceEvent.URINAL_IN_USE
    else if min_dist ≤ cfg.near_threshold_cm then PresenceEvent.NEARBY_DETECTED
    else PresenceEvent.NO_PRESENCE

/-- PresenceSensor.get_event (presence_sensor.py lines 31-43): a successful
bounded read (`some rep`) is classified by _interpret_report; any failure or
timeout raises, is caught, and yields NO_PRESENCE. -/
def get_event (cfg : PresenceConfig) (read : Option ReportBasicStatus) :
    PresenceEvent :=
  match read with
  | none => PresenceEvent.NO_PRESENCE
  | some rep => interpret_report cfg rep

/-- The minimum of a nonempty list of readings, as Python's `min`. -/
def minDistance (d : Nat) (ds : List Nat) : Nat := ds.foldl min d

/-! ## Presence poller thread control (presence_sensor.py lines 57-90) -/

/-- The mutable polling state of a PresenceSensor: the `polling` flag and
whether the worker thread is alive. -/
structure PollState where
  polling : Bool
  threadAlive : Bool
deriving DecidableEq

/-- PresenceSensor.stop_polling (lines 69-74): clears the `polling` flag and
joins the worker only when the worker exists, is alive, and the calling thread
is not the worker itself.  `callerIsWorker` records the identity comparison
`threading.current_thread() != self._thread`; the returned Bool is whether a
join on the worker thread was attempted. -/
def stop_polling (st : PollState) (callerIsWorker : Bool) : PollState × Bool :=
  ({ st with polling := false }, st.threadAlive && !callerIsWorker)

/-- PresenceSensor._poll_loop (lines 76-90), abstracted over a fuel bound on the
number of ticks observed: each tick checks `self.polling`, and if set performs
one read and invokes the callback (which may mutate the polling state, e.g. by
calling stop_polling); the result is the number of callback invocations
performed.  `time.sleep(interval)` does not affect the state. -/
def poll_loop (cb : PollState → PollState) : Nat → PollState → Nat
  | 0, _ => 0
  | n + 1, st => if st.polling then 1 + poll_loop cb n (cb st) else 0

/-- A callback that, when invoked from the polling worker, calls stop_polling
(the scenario of the claim: Stop() from inside the poller's own callback). -/
def stopFromCallback (st : PollState) : PollState := (stop_polling st true).1

/-! ## NFC tag poller (src/v2/rpi/src/nfc_reader.py) -/

/-- A detected NFC tag as built by NFCReader.read_tag_once. -/
structure TagInfo where
  uid : String
deriving DecidableEq

/-- Observable outcome of one call to NFCReader.read_tag_continuous, run
against a finite prefix of single-shot read outcomes:
`result`/`callbackCalls` as delivered, and `returned` = whether the call
actually returned (left its while loop) within the supplied prefix of reads;
`returned = false` means the call is still blocked polling after consuming
every modelled read. -/
structure ContOutcome where
  result : Option TagInfo
  callbackCalls : List TagInfo
  returned : Bool
deriving DecidableEq

/-- The while loop of NFCReader.read_tag_continuous (lines 105-117): each
iteration performs read_tag_once (consuming up to `poll_interval` seconds of
wall clock, modelled as advancing `now`); a found tag sets the event, invokes
the callback and returns the tag; otherwise the loop breaks only when
`end_time` is non-None (truthy) and the clock has passed it. -/
def read_tag_loop (endTime : Option Nat) (pollInterval : Nat) :
    Nat → List (Option TagInfo) → ContOutcome
  | _, [] => ⟨none, [], false⟩
  | now, r :: rs =>
    match r with
    | some tag => ⟨some tag, [tag], true⟩
    | none =>
      let now2 := now + pollInterval
      match endTime with
      | some e => if e ≤ now2 then ⟨none, [], true⟩
                  else read_tag_loop (some e) pollInterval now2 rs
      | none => read_tag_loop none pollInterval now2 rs

/-- NFCReader.read_tag_continuous (nfc_reader.py lines 96-117):
`end_time = time.time() + timeout if timeout > 0 else None`, then the polling
loop.  `start` is the value of time.time() on entry and `reads` the stream of
read_tag_once outcomes the environment will deliver. -/
def read_tag_continuous (timeout pollInterval start : Nat)
    (reads : List (Option TagInfo)) : ContOutcome :=
  let endTime := if timeout > 0 then some (start + timeout) else none
  read_tag_loop endTime pollInterval start reads

/-! ## Stage controller (src/v2/rpi/src/controller.py) -/

/-- The dict argument passed to Controller.set_stage; only its "stage" name is
relevant to the claims (auxiliary fields are carried separately as `extra`). -/
structure StageMsg where
  stage : String
deriving DecidableEq

/-- The stage-holding part of the Controller state: `self.state` is created in
Controller.__init__ line 32 and its stage slot replaced by set_stage line 73. -/
structure ControllerState where
  stage : StageMsg
deriving DecidableEq

/-- Controller.__init__ line 32: `self.state = {"stage": "standby"}`. -/
def initial_state : ControllerState := ⟨⟨"standby"⟩⟩

/-- Controller.set_stage (lines 66-95), restricted to its effect on the stored
stage: the stage slot is replaced by the argument. -/
def set_stage (_st : ControllerState) (msg : StageMsg) : ControllerState :=
  ⟨msg⟩

/-- The fixed enumerated set of stage names from the spec's data model. -/
def fixedStageSet : List String :=
  ["idle", "welcome", "collecting", "processing", "results", "history",
   "goodbye"]

/-- Every stage argument passed to set_stage anywhere in the program:
sample_handler.py lines 65, 92, 121 and controller.py lines 110, 122, 125. -/
def programSetStageCalls : List StageMsg :=
  [⟨"collecting"⟩, ⟨"processing"⟩, ⟨"results"⟩, ⟨"history"⟩, ⟨"welcome"⟩,
   ⟨"welcome"⟩]

/-! ## Persistence layer used by the sample lifecycle

The v2 Database class itself is not part of the analysed sources (only its
callers are), so its sample-related operations are modelled from the spec's
data model and persistence-gateway contract. -/

/-- Modelled from the spec: the Sample record
{id, device_id, start_time, end_time (nullable until closed),
result (nullable classification)} of the spec's data model; `status open` is
`end_time = none`, `status closed` is `end_time = some t`.  The result
classification is stored in the hydration_level column named by
SampleHandler.process_sample. -/
structure Sample where
  sample_id : Nat
  device_id : Nat
  start_time : Nat
  end_time : Option Nat
  hydration_level : Option String
deriving DecidableEq

/-- A row of the spectrum_datapoints table, as assembled by
SampleHandler.handle_datapoint: the payload fields relevant to the claims plus
the sample_id the handler stamps on it (None when no sample is open). -/
structure SpectrumDatapoint where
  device_id : Nat
  flag : Int
  timestamp : Nat
  sample_id : Option Nat
deriving DecidableEq

/-- Modelled from the spec: the persistence gateway's tables touched by the
Sample Lifecycle Manager, with a fresh-id counter for sample creation. -/
structure DB where
  samples : List Sample
  datapoints : List SpectrumDatapoint
  next_sample_id : Nat
deriving DecidableEq

/-- Modelled from the spec: Database.create_sample, called by
handle_datapoint line 61 — creates a new Sample (status open, start_time =
record timestamp) for the device and returns its fresh id. -/
def DB.create_sample (db : DB) (device_id ts : Nat) : Nat × DB :=
  (db.next_sample_id,
   { samples := db.samples ++ [⟨db.next_sample_id, device_id, ts, none, none⟩],
     datapoints := db.datapoints,
     next_sample_id := db.next_sample_id + 1 })

/-- Modelled from the spec: Database.close_sample, called by handle_datapoint
line 88 — marks the Sample with the given id closed by setting end_time to the
record timestamp.  The handler may pass None (`sid = none`), in which case the
update condition `sample_id = None` matches no row. -/
def DB.close_sample (db : DB) (sid : Option Nat) (ts : Nat) : DB :=
  { db with
    samples := db.samples.map (fun s =>
      if some s.sample_id = sid then { s with end_time := some ts } else s) }

/-- Modelled from the spec: Database.update_data on table urine_samples with
data {hydration_level: result} and condition `sample_id = sid`, as issued by
SampleHandler.process_sample lines 111-115. -/
def DB.update_hydration (db : DB) (sid : Option Nat) (result : String) : DB :=
  { db with
    samples := db.samples.map (fun s =>
      if some s.sample_id = sid then { s with hydration_level := some result }
      else s) }

/-- Modelled from the spec: Database.insert_dict_into_table on
spectrum_datapoints, as issued by handle_datapoint line 83. -/
def DB.insert_datapoint (db : DB) (dp : SpectrumDatapoint) : DB :=
  { db with datapoints := db.datapoints ++ [dp] }

/-- The empty database a fresh deployment starts from; sample ids are handed
out from `n0`. -/
def DB.empty (n0 : Nat) : DB := ⟨[], [], n0⟩

/-! ## Sample lifecycle manager (src/v2/rpi/src/sample_handler.py) -/

/-- The in-memory handler state: SampleHandler.__init__ line 35 keeps the
currently open sample as the single value `self.current_sample_id`
(not a per-device map). -/
structure HandlerState where
  current_sample_id : Option Nat
deriving DecidableEq

/-- One inbound measurement record as parsed by the broker and passed to
handle_datapoint: flag +1 opens, -1 closes, anything else is a mid record. -/
structure MeasureRecord where
  flag : Int
  device_id : Nat
  timestamp : Nat
deriving DecidableEq

/-- The externally visible actions of the sample lifecycle, in program order:
database calls, stage-change requests and the processing-latency sleep. -/
inductive Effect
  | createSample (device_id ts sid : Nat)
  | setStage (stage : String)
  | insertDatapoint (dp : SpectrumDatapoint)
  | closeSample (sid : Option Nat) (ts : Nat)
  | updateHydration (sid : Option Nat) (result : String)
  | sleepSecs (n : Nat)
deriving DecidableEq

/-- SampleHandler.process_sample (sample_handler.py lines 97-121): persists the
(randomly drawn) hydration classification `hyd` on the sample, sleeps 2 s of
simulated processing latency, then requests SetStage("results"). -/
def process_sample (db : DB) (sid : Option Nat) (hyd : String) :
    DB × List Effect :=
  (db.update_hydration sid hyd,
   [Effect.updateHydration sid hyd, Effect.sleepSecs 2,
    Effect.setStage "results"])

/-- SampleHandler.handle_datapoint (sample_handler.py lines 37-95).  `hyd` is
the value random.choice draws if this record closes a sample.  Returns the new
handler state, the new database, and the trace of effects in program order:
flag = 1 creates a sample and requests SetStage("collecting"); every record is
inserted as a Datapoint stamped with the current sample id; flag = -1 closes
the current sample, requests SetStage("processing"), runs process_sample
synchronously, and clears the current sample id. -/
def handle_datapoint (st : HandlerState) (db : DB) (hyd : String)
    (p : MeasureRecord) : HandlerState × DB × List Effect :=
  let step1 : HandlerState × DB × List Effect :=
    if p.flag = 1 then
      let r := db.create_sample p.device_id p.timestamp
      (⟨some r.1⟩, r.2,
       [Effect.createSample p.device_id p.timestamp r.1,
        Effect.setStage "collecting"])
    else (st, db, [])
  let st1 := step1.1
  let dp : SpectrumDatapoint :=
    ⟨p.device_id, p.flag, p.timestamp, st1.current_sample_id⟩
  let db2 := step1.2.1.insert_datapoint dp
  let eff2 := step1.2.2 ++ [Effect.insertDatapoint dp]
  if p.flag = -1 then
    let db3 := db2.close_sample st1.current_sample_id p.timestamp
    let r4 := process_sample db3 st1.current_sample_id hyd
    (⟨none⟩, r4.1,
     eff2 ++ [Effect.closeSample st1.current_sample_id p.timestamp,
              Effect.setStage "processing"] ++ r4.2)
  else
    (st1, db2, eff2)

/-- Feeds a sequence of measurement records through handle_datapoint,
accumulating the effect trace. -/
def runSeq (st : HandlerState) (db : DB) (hyd : String) :
    List MeasureRecord → HandlerState × DB × List Effect
  | [] => (st, db, [])
  | p :: ps =>
    let r1 := handle_datapoint st db hyd p
    let r2 := runSeq r1.1 r1.2.1 hyd ps
    (r2.1, r2.2.1, r1.2.2 ++ r2.2.2)

/-- The subsequence of stage-change requests in an effect trace. -/
def stageRequests : List Effect → List String
  | [] => []
  | Effect.setStage s :: es => s :: stageRequests es
  | _ :: es => stageRequests es

/-- A record is a mid record when its flag is neither the open nor the close
marker. -/
def isMid (p : MeasureRecord) : Prop := p.flag ≠ 1 ∧ p.flag ≠ -1

instance (p : MeasureRecord) : Decidable (isMid p) := by
  unfold isMid; infer_instance

/-! ## Message ingestion (Broker.save_into_database, broker.py lines 232-284) -/

/-- Observable actions of one save_into_database call.  The database write
actions are `insertRecord` (generic insert into the table named after the
topic) and `forwardToSampleHandler` (handing the record to the Sample
Lifecycle Manager, the only path that can create or close a Sample or write a
Datapoint); everything else is a log line followed by a normal return. -/
inductive IngestEffect
  | logUnmappedTopic
  | logJsonError
  | logMissingFields (missing : List String)
  | logUnknownDevice
  | insertRecord (table : String)
  | forwardToSampleHandler
deriving DecidableEq

/-- The list comprehension of broker.py line 260:
`[field for field in topic_fields if field not in data]` — the configured
required fields of the topic that the parsed payload lacks. -/
def missingFields (topic_fields : List String)
    (data : List (String × String)) : List String :=
  topic_fields.filter (fun f => data.lookup f = none)

/-- Broker.save_into_database (broker.py lines 232-284).  `topics` is the
configured topic → required-fields map, `deviceDir` the mac_address →
device_id directory behind Database.get_device_id, and `parsed` the result of
json.loads on the payload (`none` = decode failure).  Checks run in program
order: unmapped topic, JSON decode, required-field presence, device
resolution; then the record is forwarded to the sample handler for the
measurement topic or inserted verbatim otherwise. -/
def save_into_database (topics : List (String × List String))
    (deviceDir : List (String × Nat)) (topic : String)
    (parsed : Option (List (String × String))) : List IngestEffect :=
  let topic_fields := (topics.lookup topic).getD []
  if topic_fields.isEmpty then [IngestEffect.logUnmappedTopic]
  else
    match parsed with
    | none => [IngestEffect.logJsonError]
    | some data =>
      let missing := missingFields topic_fields data
      if ¬ missing.isEmpty then [IngestEffect.logMissingFields missing]
      else
        match (data.lookup "mac_address").bind
            (fun mac => deviceDir.lookup mac) with
        | none => [IngestEffect.logUnknownDevice]
        | some _device_id =>
          if topic = "spectrum_datapoints" then
            [IngestEffect.forwardToSampleHandler]
          else [IngestEffect.insertRecord topic]

/-- An ingestion action that writes to the database (directly or through the
sample handler, which is the only path creating or closing Samples and writing
Datapoints). -/
def isDbWrite (e : IngestEffect) : Bool :=
  match e with
  | IngestEffect.insertRecord _ => true
  | IngestEffect.forwardToSampleHandler => true
  | _ => false

/-! ## Broker supervisor (Broker.start_broker, broker.py lines 76-128) -/

/-- Observable actions of Broker.start_broker: spawning a mosquitto process,
the fixed sleeps, health-check results, per-attempt error logging, the
one-shot OS-level service restart fallback, and its error log. -/
inductive StartEffect
  | startProc
  | sleepSecs (n : Nat)
  | healthCheck (alive : Bool)
  | logStartError
  | serviceRestart
  | logRestartError
deriving DecidableEq

/-- The retry loop of start_broker (broker.py lines 85-101), unrolled over the
remaining attempt budget.  `health i` is what is_mosquitto_running reports
after the i-th spawn.  Returns the effects of the loop and whether some
attempt's health check succeeded (in which case start_broker returned from
inside the loop).  A failed check raises, is caught, logged, and followed by
another `timeout` sleep before the next attempt. -/
def start_attempts (health : Nat → Bool) (timeout : Nat) :
    Nat → Nat → List StartEffect × Bool
  | 0, _ => ([], false)
  | n + 1, i =>
    if health i then
      ([StartEffect.startProc, StartEffect.sleepSecs timeout,
        StartEffect.healthCheck true], true)
    else
      let rest := start_attempts health timeout n (i + 1)
      (StartEffect.startProc :: StartEffect.sleepSecs timeout ::
        StartEffect.healthCheck false :: StartEffect.logStartError ::
        StartEffect.sleepSecs timeout :: rest.1, rest.2)

/-- Broker.start_broker (broker.py lines 76-115).  `alreadyRunning` is the
initial is_mosquitto_running check; when it holds, the call returns at once.
Otherwise up to `num_retries` start-sleep-check cycles run; if none succeeds,
exactly one OS-level service restart is attempted, whose own failure
(`fallbackOk = false`) is caught and logged.  The function is total: no path
propagates an exception to the caller. -/
def start_broker (alreadyRunning : Bool) (health : Nat → Bool)
    (fallbackOk : Bool) (num_retries timeout : Nat) : List StartEffect :=
  if alreadyRunning then []
  else
    let r := start_attempts health timeout num_retries 0
    if r.2 then r.1
    else
      r.1 ++ (if fallbackOk then [StartEffect.serviceRestart]
              else [StartEffect.serviceRestart, StartEffect.logRestartError])

/-- The number of start-then-wait-then-health-check cycles in a trace. -/
def countStarts : List StartEffect → Nat
  | [] => 0
  | StartEffect.startProc :: es => countStarts es + 1
  | _ :: es => countStarts es

/-- The number of OS-level service restart fallbacks in a trace. -/
def countRestarts : List StartEffect → Nat
  | [] => 0
  | StartEffect.serviceRestart :: es => countRestarts es + 1
  | _ :: es => countRestarts es

/-- The number of Sample creations in a sample-lifecycle effect trace. -/
def countSampleCreates : List Effect → Nat
  | [] => 0
  | Effect.createSample _ _ _ :: es => countSampleCreates es + 1
  | _ :: es => countSampleCreates es

/-- The four-record measurement sequence {open, mid, mid, close} of one
device, with the timestamps carried by the records. -/
def cycleRecords (d t1 t2 t3 t4 : Nat) : List MeasureRecord :=
  [⟨1, d, t1⟩, ⟨0, d, t2⟩, ⟨0, d, t3⟩, ⟨-1, d, t4⟩]

/-- Two devices with concurrently open cycles: device 1 opens, device 2 opens,
device 2 closes, device 1 closes. -/
def twoDeviceRecords : List MeasureRecord :=
  [⟨1, 1, 10⟩, ⟨1, 2, 20⟩, ⟨-1, 2, 30⟩, ⟨-1, 1, 40⟩]

/-! ## Theorems -/

/-- A poll loop over a worker whose polling flag is cleared performs no tick. -/
theorem poll_loop_stopped (cb : PollState → PollState) (n : Nat)
    (st : PollState) (h : st.polling = false) : poll_loop cb n st = 0 := by
  cases n with
  | zero => rfl
  | succ n => simp [poll_loop, h]

/-- C8: calling the Presence Poller's Stop() from inside its own polling
callback is deadlock-free — the join guard of stop_polling never attempts to
join the worker the caller is running on — and since the callback clears the
polling flag, the loop performs only the current tick: the callback count of
the whole remaining loop is 1 when polling was on and 0 otherwise, so no
further callback invocation occurs after Stop() returns. -/
theorem stop_polling_from_callback_safe (st : PollState) (fuel : Nat) :
    (stop_polling st true).2 = false ∧
    poll_loop stopFromCallback (fuel + 1) st = (if st.polling then 1 else 0) :=
  by
  constructor
  · simp [stop_polling]
  · by_cases h : st.polling
    · simp [poll_loop, h,
        poll_loop_stopped stopFromCallback fuel (stopFromCallback st) rfl]
    · simp [poll_loop, h]

/-- C10: presence classification discards every raw distance reading equal to
0 (falsy in the source's filter) before taking the minimum, so a report whose
only readings are 0 — the closest possible presence — classifies as
NO_PRESENCE (ABSENT) for every threshold configuration, never IN_USE. -/
theorem zero_distances_classify_absent :
    (∀ cfg : PresenceConfig,
      interpret_report cfg ⟨0, 0, 0⟩ = PresenceEvent.NO_PRESENCE) ∧
    (∀ rep : ReportBasicStatus, 0 ∉ availableDistances rep) := by
  constructor
  · intro cfg; rfl
  · intro rep h
    simp [availableDistances, List.mem_filter] at h

/-- C6: on a successful presence read the classification compares the minimum
of the available (nonzero) distance samples against the two thresholds —
IN_USE when min ≤ inUseThreshold, NEARBY when inUseThreshold < min ≤
nearbyThreshold, ABSENT otherwise; with no available samples, or on read
failure or timeout, the classification is ABSENT; and distances

[200, 150, 80] with thresholds (inUse = 60, nearby = 120) classify NEARBY. -/
theorem presence_classification (cfg : PresenceConfig)
    (rep : ReportBasicStatus) (d : Nat) (ds : List Nat)
    (hthr : cfg.in_use_threshold_cm < cfg.near_threshold_cm) :
    (availableDistances rep = d :: ds →
      (minDistance d ds ≤ cfg.in_use_threshold_cm →
        get_event cfg (some rep) = PresenceEvent.URINAL_IN_USE) ∧
      (cfg.in_use_threshold_cm < minDistance d ds →
        minDistance d ds ≤ cfg.near_threshold_cm →
        get_event cfg (some rep) = PresenceEvent.NEARBY_DETECTED) ∧
      (cfg.near_threshold_cm < minDistance d ds →
        get_event cfg (some rep) = PresenceEvent.NO_PRESENCE)) ∧
    (availableDistances rep = [] →
      get_event cfg (some rep) = PresenceEvent.NO_PRESENCE) ∧
    get_event cfg none = PresenceEvent.NO_PRESENCE ∧
    interpret_report ⟨60, 120⟩ ⟨200, 150, 80⟩ =
      PresenceEvent.NEARBY_DETECTED := by
  refine ⟨?_, ?_, rfl, by decide⟩
  · intro hrep
    have hge : get_event cfg (some rep) = interpret_report cfg rep := rfl
    rw [hge]
    unfold interpret_report
    rw [hrep]
    unfold minDistance
    refine ⟨?_, ?_, ?_⟩
    · intro h1; simp [h1]
    · intro h1 h2; simp only []; rw [if_neg (by omega), if_pos h2]
    · intro h1; simp only []; rw [if_neg (by omega), if_neg (by omega)]
  · intro hrep
    have hge : get_event cfg (some rep) = interpret_report cfg rep := rfl
    rw [hge]
    unfold interpret_report
    rw [hrep]

/-- C6 witness: the spec's concrete instance, distances [200, 150, 80] with
thresholds (60, 120), classifies NEARBY on a successful read. -/
theorem presence_classification_witness :
    get_event ⟨60, 120⟩ (some ⟨200, 150, 80⟩) =
      PresenceEvent.NEARBY_DETECTED :=
  ((presence_classification ⟨60, 120⟩ ⟨200, 150, 80⟩ 200
    [150, 80] (by decide)).1 (by decide)).2.1 (by decide) (by decide)

/-- C7 counterexample: at process start the stage created by
Controller.__init__ is named "standby", not "idle" as the claim states. -/
theorem initial_stage_not_idle :
    initial_state.stage.stage ≠ "idle" ∧
    initial_state.stage.stage = "standby" := by decide

/-- C7 (amended): at process start the current stage name is "standby", and
after every set_stage call the program makes (all call sites of set_stage in
sample_handler.py and controller.py) the current stage name is one of the
fixed enumerated set. -/
theorem program_stage_names_fixed (msg : StageMsg)
    (hmem : msg ∈ programSetStageCalls) (st : ControllerState) :
    initial_state.stage.stage = "standby" ∧
    (set_stage st msg).stage.stage ∈ fixedStageSet := by
  refine ⟨rfl, ?_⟩
  have h : (set_stage st msg).stage.stage = msg.stage := rfl
  rw [h]
  fin_cases hmem <;> decide

/-- C7 witness: the "collecting" call site leaves the stage name inside the
fixed set. -/
theorem program_stage_names_fixed_witness :
    (set_stage initial_state ⟨"collecting"⟩).stage.stage ∈ fixedStageSet :=
  (program_stage_names_fixed ⟨"collecting"⟩ (by decide) initial_state).2

/-- With a truthy deadline absent (end_time = None), the read loop of
read_tag_continuous never breaks on time: a run of failed single-shot reads
leaves it still polling, and the first successful read returns that tag after
invoking the callback once. -/
theorem read_tag_loop_no_deadline (p : Nat) (t : TagInfo)
    (rest : List (Option TagInfo)) : ∀ (n now : Nat),
    read_tag_loop none p now (List.replicate n none) = ⟨none, [], false⟩ ∧
    read_tag_loop none p now (List.replicate n none ++ some t :: rest) =
      ⟨some t, [t], true⟩ := by
  intro n
  induction n with
  | zero => intro now; exact ⟨rfl, rfl⟩
  | succ n ih =>
    intro now
    simpa [List.replicate_succ, read_tag_loop] using ih (now + p)

/-- C5 (amended): read_tag_continuous called with timeout = 0 sets no deadline
(end_time = None), so it never returns "not found": after any number of failed
single-shot reads the call is still polling (it blocks), and it returns only
when a read detects a tag, invoking the callback exactly once with it. -/
theorem tag_poller_timeout_zero_blocks (p s n : Nat) (t : TagInfo)
    (rest : List (Option TagInfo)) :
    (read_tag_continuous 0 p s (List.replicate n none)).returned = false ∧
    read_tag_continuous 0 p s (List.replicate n none ++ some t :: rest) =
      ⟨some t, [t], true⟩ := by
  have h := read_tag_loop_no_deadline p t rest n s
  constructor
  · show (read_tag_loop none p s (List.replicate n none)).returned = false
    rw [h.1]
  · show read_tag_loop none p s (List.replicate n none ++ some t :: rest) =
      ⟨some t, [t], true⟩
    exact h.2

/-- C5 counterexample: with timeout = 0 the call does not terminate
immediately with "not found"; it keeps polling, and a read that then detects a
tag makes the call return that tag after invoking the callback — contradicting
"returns None without invoking the callback". -/
theorem tag_poller_timeout_zero_counterexample :
    (read_tag_continuous 0 1 0 [some ⟨"0123456789ABCDEF"⟩]).result ≠ none ∧
    (read_tag_continuous 0 1 0 [some ⟨"0123456789ABCDEF"⟩]).callbackCalls ≠
      [] ∧
    (read_tag_continuous 0 1 0
      [none, none, none, none, none]).returned = false := by decide

/-- Unfolding of runSeq on a cons cell. -/
theorem runSeq_cons (st : HandlerState) (db : DB) (hyd : String)
    (p : MeasureRecord) (ps : List MeasureRecord) :
    runSeq st db hyd (p :: ps) =
      ((runSeq (handle_datapoint st db hyd p).1
          (handle_datapoint st db hyd p).2.1 hyd ps).1,
       (runSeq (handle_datapoint st db hyd p).1
          (handle_datapoint st db hyd p).2.1 hyd ps).2.1,
       (handle_datapoint st db hyd p).2.2 ++
         (runSeq (handle_datapoint st db hyd p).1
            (handle_datapoint st db hyd p).2.1 hyd ps).2.2) := rfl

/-- runSeq splits over list concatenation. -/
theorem runSeq_append (hyd : String) : ∀ (xs ys : List MeasureRecord)
    (st : HandlerState) (db : DB),
    runSeq st db hyd (xs ++ ys) =
      ((runSeq (runSeq st db hyd xs).1 (runSeq st db hyd xs).2.1 hyd ys).1,
       (runSeq (runSeq st db hyd xs).1 (runSeq st db hyd xs).2.1 hyd ys).2.1,
       (runSeq st db hyd xs).2.2 ++
         (runSeq (runSeq st db hyd xs).1
            (runSeq st db hyd xs).2.1 hyd ys).2.2) := by
  intro xs
  induction xs with
  | nil => intro ys st db; simp [runSeq]
  | cons p ps ih =>
    intro ys st db
    simp only [List.cons_append, runSeq_cons, ih, List.append_assoc]

/-- handle_datapoint on a mid record: no stage change, no sample creation or
closing — only the Datapoint insert, stamped with the current sample id. -/
theorem handle_mid (st : HandlerState) (db : DB) (hyd : String)
    (p : MeasureRecord) (h : isMid p) :
    handle_datapoint st db hyd p =
      (st,
       db.insert_datapoint
         ⟨p.device_id, p.flag, p.timestamp, st.current_sample_id⟩,
       [Effect.insertDatapoint
         ⟨p.device_id, p.flag, p.timestamp, st.current_sample_id⟩]) := by
  obtain ⟨h1, h2⟩ := h
  simp [handle_datapoint, h1, h2]

/-- handle_datapoint on an open record: creates the sample with the fresh id,
requests SetStage("collecting"), and inserts the datapoint stamped with it. -/
theorem handle_open (db : DB) (hyd : String) (d t0 : Nat) :
    handle_datapoint ⟨none⟩ db hyd ⟨1, d, t0⟩ =
      (⟨some db.next_sample_id⟩,
       (db.create_sample d t0).2.insert_datapoint
         ⟨d, 1, t0, some db.next_sample_id⟩,
       [Effect.createSample d t0 db.next_sample_id,
        Effect.setStage "collecting",
        Effect.insertDatapoint ⟨d, 1, t0, some db.next_sample_id⟩]) := by
  simp [handle_datapoint, DB.create_sample]

/-- handle_datapoint on a close record with sample `sid` open: inserts the
datapoint, closes the sample, requests SetStage("processing"), persists the
hydration classification, sleeps, then requests SetStage("results"), and
clears the current sample id. -/
theorem handle_close (st : HandlerState) (db : DB) (hyd : String)
    (d t1 : Nat) :
    handle_datapoint st db hyd ⟨-1, d, t1⟩ =
      (⟨none⟩,
       ((db.insert_datapoint
            ⟨d, -1, t1, st.current_sample_id⟩).close_sample
          st.current_sample_id t1).update_hydration st.current_sample_id hyd,
       [Effect.insertDatapoint ⟨d, -1, t1, st.current_sample_id⟩,
        Effect.closeSample st.current_sample_id t1,
        Effect.setStage "processing",
        Effect.updateHydration st.current_sample_id hyd,
        Effect.sleepSecs 2,
        Effect.setStage "results"]) := by
  simp [handle_datapoint, process_sample]

/-- runSeq over mid records from an open sample: the state is unchanged and
each record only inserts a Datapoint stamped with the open sample id. -/
theorem runSeq_mids (hyd : String) (sid : Nat) :
    ∀ (mids : List MeasureRecord) (db : DB), (∀ p ∈ mids, isMid p) →
    runSeq ⟨some sid⟩ db hyd mids =
      (⟨some sid⟩,
       mids.foldl (fun d p =>
         d.insert_datapoint
           ⟨p.device_id, p.flag, p.timestamp, some sid⟩) db,
       mids.map fun p =>
         Effect.insertDatapoint
           ⟨p.device_id, p.flag, p.timestamp, some sid⟩) := by
  intro mids
  induction mids with
  | nil => intro db _; simp [runSeq]
  | cons p ps ih =>
    intro db hmid
    have hp := hmid p (List.mem_cons_self p ps)
    have hps := fun q hq => hmid q (List.mem_cons_of_mem p hq)
    rw [runSeq_cons, handle_mid _ _ _ _ hp]
    simp [ih _ hps]

/-- stageRequests distributes over concatenation. -/
theorem stageRequests_append : ∀ (a b : List Effect),
    stageRequests (a ++ b) = stageRequests a ++ stageRequests b := by
  intro a
  induction a with
  | nil => intro b; rfl
  | cons e es ih =>
    intro b
    cases e <;> simp [stageRequests, ih]

/-- Datapoint inserts contribute no stage request. -/
theorem stageRequests_inserts (sid : Option Nat) :
    ∀ (mids : List MeasureRecord),
    stageRequests (mids.map fun p =>
      Effect.insertDatapoint ⟨p.device_id, p.flag, p.timestamp, sid⟩) = [] :=
  by
  intro mids
  induction mids with
  | nil => rfl
  | cons p ps ih => simp [stageRequests, ih]

/-- C1: over a complete sample cycle on one device — an open record, any
number of mid records, then a close record, starting with no open sample — the
Sample Lifecycle Manager requests exactly the stages collecting, processing,
results, in this order with none skipped or repeated; and the full effect
trace shows the persistence of the result classification on the Sample
(updateHydration) strictly before the "results" request, which is the last
effect. -/
theorem sample_cycle_stage_order (d t0 t1 : Nat) (hyd : String) (db : DB)
    (mids : List MeasureRecord) (hmid : ∀ p ∈ mids, isMid p) :
    stageRequests
        (runSeq ⟨none⟩ db hyd (⟨1, d, t0⟩ :: (mids ++ [⟨-1, d, t1⟩]))).2.2 =
      ["collecting", "processing", "results"] ∧
    (runSeq ⟨none⟩ db hyd (⟨1, d, t0⟩ :: (mids ++ [⟨-1, d, t1⟩]))).2.2 =
      Effect.createSample d t0 db.next_sample_id ::
      Effect.setStage "collecting" ::
      Effect.insertDatapoint ⟨d, 1, t0, some db.next_sample_id⟩ ::
      ((mids.map fun p =>
          Effect.insertDatapoint
            ⟨p.device_id, p.flag, p.timestamp, some db.next_sample_id⟩) ++
       [Effect.insertDatapoint ⟨d, -1, t1, some db.next_sample_id⟩,
        Effect.closeSample (some db.next_sample_id) t1,
        Effect.setStage "processing",
        Effect.updateHydration (some db.next_sample_id) hyd,
        Effect.sleepSecs 2,
        Effect.setStage "results"]) := by
  have htrace :
      (runSeq ⟨none⟩ db hyd (⟨1, d, t0⟩ :: (mids ++ [⟨-1, d, t1⟩]))).2.2 =
        Effect.createSample d t0 db.next_sample_id ::
        Effect.setStage "collecting" ::
        Effect.insertDatapoint ⟨d, 1, t0, some db.next_sample_id⟩ ::
        ((mids.map fun p =>
            Effect.insertDatapoint
              ⟨p.device_id, p.flag, p.timestamp, some db.next_sample_id⟩) ++
         [Effect.insertDatapoint ⟨d, -1, t1, some db.next_sample_id⟩,
          Effect.closeSample (some db.next_sample_id) t1,
          Effect.setStage "processing",
          Effect.updateHydration (some db.next_sample_id) hyd,
          Effect.sleepSecs 2,
          Effect.setStage "results"]) := by
    rw [runSeq_cons, handle_open]
    rw [runSeq_append]
    rw [runSeq_mids hyd db.next_sample_id mids _ hmid]
    rw [runSeq_cons, handle_close]
    simp [runSeq]
  refine ⟨?_, htrace⟩
  rw [htrace]
  simp [stageRequests, stageRequests_append, stageRequests_inserts]

/-- C1 witness: the cycle open, mid, mid, close on device 7 from an empty
database requests exactly collecting, processing, results. -/
theorem sample_cycle_stage_order_witness :
    stageRequests
        (runSeq ⟨none⟩ (DB.empty 1) "OK"
          (⟨1, 7, 10⟩ :: ([⟨0, 7, 20⟩, ⟨0, 7, 30⟩] ++ [⟨-1, 7, 40⟩]))).2.2 =
      ["collecting", "processing", "results"] :=
  (sample_cycle_stage_order 7 10 40 "OK" (DB.empty 1)
    [⟨0, 7, 20⟩, ⟨0, 7, 30⟩] (by decide)).1

/-- C2: a device with no open sample receiving the sequence {open, mid, mid,
close} yields exactly one created Sample; when the records' timestamps are in
temporal order (close not before open) its end_time ≥ start_time; and all four
persisted Datapoints carry that Sample's id. -/
theorem four_record_cycle (d t1 t2 t3 t4 n0 : Nat) (hyd : String)
    (h : t1 ≤ t4) :
    countSampleCreates
        (runSeq ⟨none⟩ (DB.empty n0) hyd (cycleRecords d t1 t2 t3 t4)).2.2 =
      1 ∧
    (runSeq ⟨none⟩ (DB.empty n0) hyd (cycleRecords d t1 t2 t3 t4)).2.1.samples
      = [⟨n0, d, t1, some t4, some hyd⟩] ∧
    (∀ s ∈ (runSeq ⟨none⟩ (DB.empty n0) hyd
        (cycleRecords d t1 t2 t3 t4)).2.1.samples,
      ∀ te, s.end_time = some te → s.start_time ≤ te) ∧
    (runSeq ⟨none⟩ (DB.empty n0) hyd
        (cycleRecords d t1 t2 t3 t4)).2.1.datapoints =
      [⟨d, 1, t1, some n0⟩, ⟨d, 0, t2, some n0⟩, ⟨d, 0, t3, some n0⟩,
       ⟨d, -1, t4, some n0⟩] := by
  have hrun :
      runSeq ⟨none⟩ (DB.empty n0) hyd (cycleRecords d t1 t2 t3 t4) =
        (⟨none⟩,
         ⟨[⟨n0, d, t1, some t4, some hyd⟩],
          [⟨d, 1, t1, some n0⟩, ⟨d, 0, t2, some n0⟩, ⟨d, 0, t3, some n0⟩,
           ⟨d, -1, t4, some n0⟩], n0 + 1⟩,
         [Effect.createSample d t1 n0, Effect.setStage "collecting",
          Effect.insertDatapoint ⟨d, 1, t1, some n0⟩,
          Effect.insertDatapoint ⟨d, 0, t2, some n0⟩,
          Effect.insertDatapoint ⟨d, 0, t3, some n0⟩,
          Effect.insertDatapoint ⟨d, -1, t4, some n0⟩,
          Effect.closeSample (some n0) t4,
          Effect.setStage "processing",
          Effect.updateHydration (some n0) hyd,
          Effect.sleepSecs 2,
          Effect.setStage "results"]) := by
    simp [cycleRecords, runSeq, handle_datapoint, process_sample, DB.empty,
      DB.create_sample, DB.insert_datapoint, DB.close_sample,
      DB.update_hydration]
  rw [hrun]
  refine ⟨rfl, rfl, ?_, rfl⟩
  intro s hs te hte
  simp at hs
  subst hs
  simp at hte ⊢
  omega

/-- C2 witness: the concrete cycle on device 7 with timestamps 10, 20, 30, 40
produces one sample with start 10 and end 40 and four datapoints with its
id. -/
theorem four_record_cycle_witness :
    (runSeq ⟨none⟩ (DB.empty 1) "OK"
        (cycleRecords 7 10 20 30 40)).2.1.samples =
      [⟨1, 7, 10, some 40, some "OK"⟩] :=
  (four_record_cycle 7 10 20 30 40 1 "OK" (by decide)).2.1

/-- C4: with two devices holding concurrently open cycles, the single global
current_sample_id of SampleHandler loses device 1's close — after the
interleaving open(dev 1), open(dev 2), close(dev 2), close(dev 1), device 1's
sample still has no end_time (it is never set, rather than exactly once at
close), and device 1's close datapoint is stamped with no sample id. -/
theorem single_global_sample_loses_close :
    (runSeq ⟨none⟩ (DB.empty 1) "OK" twoDeviceRecords).2.1.samples =
      [⟨1, 1, 10, none, none⟩, ⟨2, 2, 20, some 30, some "OK"⟩] ∧
    SpectrumDatapoint.mk 1 (-1) 40 none ∈
      (runSeq ⟨none⟩ (DB.empty 1) "OK" twoDeviceRecords).2.1.datapoints := by
  decide

/-- C3: an inbound message on a configured topic whose parsed payload lacks at
least one of the topic's required fields is dropped: the only effect is the
log line enumerating exactly the missing field names — no database write and
no forwarding to the sample lifecycle (so no Sample is created or closed and
no Datapoint is written) — and save_into_database returns normally. -/
theorem ingestion_missing_fields_drop (topics : List (String × List String))
    (deviceDir : List (String × Nat)) (topic : String)
    (data : List (String × String))
    (hmapped : ((topics.lookup topic).getD []).isEmpty = false)
    (hmissing :
      (missingFields ((topics.lookup topic).getD []) data).isEmpty = false) :
    save_into_database topics deviceDir topic (some data) =
      [IngestEffect.logMissingFields
        (missingFields ((topics.lookup topic).getD []) data)] ∧
    ∀ e ∈ save_into_database topics deviceDir topic (some data),
      isDbWrite e = false := by
  have h1 : save_into_database topics deviceDir topic (some data) =
      [IngestEffect.logMissingFields
        (missingFields ((topics.lookup topic).getD []) data)] := by
    simp [save_into_database, hmapped, hmissing]
  refine ⟨h1, ?_⟩
  intro e he
  rw [h1] at he
  simp at he
  rw [he]
  rfl

/-- C3 witness: a measurement payload missing the required "flag" field
produces only the log enumerating ["flag"]. -/
theorem ingestion_missing_fields_drop_witness :
    save_into_database
        [("spectrum_datapoints", ["flag", "device_id", "mac_address"])]
        [("AA", 7)] "spectrum_datapoints"
        (some [("device_id", "7"), ("mac_address", "AA")]) =
      [IngestEffect.logMissingFields ["flag"]] := by
  rw [(ingestion_missing_fields_drop
    [("spectrum_datapoints", ["flag", "device_id", "mac_address"])]
    [("AA", 7)] "spectrum_datapoints"
    [("device_id", "7"), ("mac_address", "AA")] (by decide) (by decide)).1]
  decide

/-- countStarts distributes over concatenation. -/
theorem countStarts_append : ∀ (a b : List StartEffect),
    countStarts (a ++ b) = countStarts a + countStarts b := by
  intro a
  induction a with
  | nil => intro b; simp [countStarts]
  | cons e es ih =>
    intro b
    cases e
    all_goals simp [countStarts, ih]
    all_goals omega

/-- countRestarts distributes over concatenation. -/
theorem countRestarts_append : ∀ (a b : List StartEffect),
    countRestarts (a ++ b) = countRestarts a + countRestarts b := by
  intro a
  induction a with
  | nil => intro b; simp [countRestarts]
  | cons e es ih =>
    intro b
    cases e
    all_goals simp [countRestarts, ih]
    all_goals omega

/-- The one-shot fallback contains no start cycle. -/
theorem countStarts_fallback (fb : Bool) :
    countStarts (if fb then [StartEffect.serviceRestart]
      else [StartEffect.serviceRestart, StartEffect.logRestartError]) = 0 := by
  cases fb <;> rfl

/-- The one-shot fallback contains exactly one service restart. -/
theorem countRestarts_fallback (fb : Bool) :
    countRestarts (if fb then [StartEffect.serviceRestart]
      else [StartEffect.serviceRestart, StartEffect.logRestartError]) = 1 := by
  cases fb <;> rfl

/-- The retry loop performs at most its attempt budget of start cycles. -/
theorem start_attempts_starts_le (health : Nat → Bool) (t : Nat) :
    ∀ n i, countStarts (start_attempts health t n i).1 ≤ n := by
  intro n
  induction n with
  | zero => intro i; simp [start_attempts, countStarts]
  | succ n ih =>
    intro i
    by_cases h : health i
    · simp [start_attempts, h, countStarts]
    · simp [start_attempts, h, countStarts]
      have := ih (i + 1)
      omega

/-- The retry loop never issues the OS-level service restart itself. -/
theorem start_attempts_no_restart (health : Nat → Bool) (t : Nat) :
    ∀ n i, countRestarts (start_attempts health t n i).1 = 0 := by
  intro n
  induction n with
  | zero => intro i; simp [start_attempts, countRestarts]
  | succ n ih =>
    intro i
    by_cases h : health i
    · simp [start_attempts, h, countRestarts]
    · simp [start_attempts, h, countRestarts, ih (i + 1)]

/-- When every health check fails, the retry loop uses its whole budget and
reports failure. -/
theorem start_attempts_all_fail (health : Nat → Bool) (t : Nat) :
    ∀ n i, (∀ j, j < n → health (i + j) = false) →
    countStarts (start_attempts health t n i).1 = n ∧
    (start_attempts health t n i).2 = false := by
  intro n
  induction n with
  | zero => intro i _; simp [start_attempts, countStarts]
  | succ n ih =>
    intro i h
    have h0 : health i = false := by simpa using h 0 (by omega)
    have hrest := ih (i + 1) (fun j hj => by
      have hx := h (j + 1) (by omega)
      rw [show i + (j + 1) = i + 1 + j by omega] at hx
      exact hx)
    simp [start_attempts, h0, countStarts, hrest.1, hrest.2]

/-- When the k-th health check is the first to succeed, the retry loop stops
after k + 1 start cycles and reports success. -/
theorem start_attempts_success (health : Nat → Bool) (t : Nat) :
    ∀ n i k, k < n → health (i + k) = true →
    (∀ j, j < k → health (i + j) = false) →
    countStarts (start_attempts health t n i).1 = k + 1 ∧
    (start_attempts health t n i).2 = true := by
  intro n
  induction n with
  | zero => intro i k hk _ _; exact absurd hk (Nat.not_lt_zero k)
  | succ n ih =>
    intro i k hk hsucc hbefore
    cases k with
    | zero =>
      have h0 : health i = true := by simpa using hsucc
      simp [start_attempts, h0, countStarts]
    | succ k =>
      have h0 : health i = false := by simpa using hbefore 0 (by omega)
      have hrec := ih (i + 1) k (by omega)
        (by rw [show i + 1 + k = i + (k + 1) by omega]; exact hsucc)
        (fun j hj => by
          have hx := hbefore (j + 1) (by omega)
          rw [show i + (j + 1) = i + 1 + j by omega] at hx
          exact hx)
      simp [start_attempts, h0, countStarts, hrec.1, hrec.2]

/-- C9: start_broker returns at once when the broker process is already alive
(no start cycle); otherwise it performs at most num_retries
start-then-wait-then-health-check cycles; a first successful health check at
attempt i ends the procedure after exactly i + 1 cycles with no fallback; and
when every attempt fails it issues the OS-level service restart fallback
exactly once.  The embedded function is total — every failure path is caught
and logged, none propagates an exception to the caller. -/
theorem start_broker_policy (health : Nat → Bool) (fb : Bool) (n t : Nat) :
    start_broker true health fb n t = [] ∧
    countStarts (start_broker false health fb n t) ≤ n ∧
    ((∀ i, i < n → health i = false) →
      countStarts (start_broker false health fb n t) = n ∧
      countRestarts (start_broker false health fb n t) = 1) ∧
    (∀ i, i < n → health i = true → (∀ j, j < i → health j = false) →
      countStarts (start_broker false health fb n t) = i + 1 ∧
      countRestarts (start_broker false health fb n t) = 0) := by
  refine ⟨rfl, ?_, ?_, ?_⟩
  · by_cases hr : (start_attempts health t n 0).2
    · simp [start_broker, hr, start_attempts_starts_le]
    · simp [start_broker, hr, countStarts_append, countStarts_fallback,
        start_attempts_starts_le]
  · intro h
    have hfail := start_attempts_all_fail health t n 0
      (fun j hj => by simpa using h j hj)
    simp [start_broker, hfail.1, hfail.2, countStarts_append,
      countRestarts_append, countStarts_fallback, countRestarts_fallback,
      start_attempts_no_restart]
  · intro i hi hit hbefore
    have hsucc := start_attempts_success health t n 0 i hi
      (by simpa using hit) (fun j hj => by simpa using hbefore j hj)
    simp [start_broker, hsucc.1, hsucc.2, start_attempts_no_restart]

/-- C9 witness: with the health check first succeeding on the second attempt
(budget 3, timeout 2), the procedure runs exactly two cycles and no
fallback. -/
theorem start_broker_policy_witness :
    countStarts
        (start_broker false (fun i => decide (i = 1)) true 3 2) = 2 ∧
    countRestarts
        (start_broker false (fun i => decide (i = 1)) true 3 2) = 0 :=
  (start_broker_policy (fun i => decide (i = 1)) true 3 2).2.2.2 1
    (by decide) (by decide)
    (fun j hj => by
      have hj0 : j = 0 := by omega
      rw [hj0]
      rfl)

end UroGuardian
